import Mathlib

/-!
Verification of the GameRecSite repository: a shallow embedding of the
data model (src/models.py), the RAWG API client (src/api_client.py) and
the Flask route handlers (src/app.py), together with theorems settling
the specification claims about the cache-then-fetch merge, signup,
saved-list logging and API-client field handling.

Database tables are modelled as Lean lists of rows; the SQL query
order_by(rating.desc()).limit(n) is modelled as a stable insertion sort
by descending rating followed by take n (Python sorted and SQL ordering
are stable, as is insertion sort with a non-strict total preorder, so the
model is faithful up to the order among equal ratings, which no claim
distinguishes).  Commit success or failure of a database transaction is
an external event and enters as an explicit Boolean parameter.  The
response of the external HTTP API enters as an Option-typed parameter:
none models a failed request (requests raising, caught and turned into
None by RAWGClient._make_request).  Float ratings are modelled as
rational numbers.
-/

namespace GameRecSite

/-! ### Data model, src/models.py

Integer primary keys and created_at timestamps are generated by the
database and never inspected by any handler, so rows carry only the
payload columns. -/

/-- A row of the Game table (cache of external API results). -/
structure GameRow where
  rawg_id : Int
  title : String
  platform : String
  genre : String
  rating : ℚ
  image_url : String
  description : String
deriving DecidableEq, Repr

/-- A row of the User table. -/
structure UserRow where
  username : String
  password_hash : String
deriving DecidableEq, Repr

/-- A row of the SavedList table. -/
structure SavedListRow where
  user_id : Nat
  platform_choice : String
  genre_choice : String
deriving DecidableEq, Repr

/-! ### API client data, src/api_client.py -/

/-- One entry of the results array of a RAWG API response, with the
fields the client reads.  An Option field is none when the key is absent
from the JSON object (dict.get returns the default).  The id field is
taken as present: every claim-relevant code path reads it as an opaque
integer. -/
structure RawGame where
  id : Int
  name : Option String
  rating : Option ℚ
  metacritic : Option ℚ
  background_image : Option String
  description_raw : Option String
deriving DecidableEq, Repr

/-- A decoded JSON response body; results is none when the key
is missing. -/
structure ApiResponse where
  results : Option (List RawGame)
deriving DecidableEq, Repr

/-- The game dictionary built by the client and consumed by the
/results handler — exactly the seven keys of the source dict. -/
structure GameInfo where
  rawg_id : Int
  title : String
  platform : String
  genre : String
  rating : ℚ
  image_url : String
  description : String
deriving DecidableEq, Repr

/-- RAWGClient.PLATFORM_MAP: user selection to RAWG platform id. -/
def PLATFORM_MAP : List (String × Nat) :=
  [("Steam", 4), ("Xbox Series X|S", 186), ("PlayStation 5", 187), ("Nintendo Switch", 7)]

/-- RAWGClient.GENRE_MAP: user selection to RAWG genre slug. -/
def GENRE_MAP : List (String × String) :=
  [("RPG", "role-playing-games-rpg"), ("Shooter", "shooter"), ("Platformer", "platformer"),
   ("Metroidvania", "metroidvania"), ("Action", "action")]

/-- The query parameters the client sends to the games endpoint. -/
structure RequestParams where
  platforms : Nat
  genres : String
  page_size : Nat
  ordering : String
deriving DecidableEq, Repr

/-- The params dict built by get_games_by_platform_and_genre, or none
when the handler returns early because a lookup failed the Python
truthiness test (not platform_id or not genre_slug). -/
def requestParamsFor (platform genre : String) (page_size : Nat) : Option RequestParams :=
  match PLATFORM_MAP.lookup platform, GENRE_MAP.lookup genre with
  | some platform_id, some genre_slug =>
    if platform_id == 0 || genre_slug == "" then none
    else some { platforms := platform_id, genres := genre_slug,
                page_size := page_size, ordering := "-rating" }
  | _, _ => none

/-- Python string slicing s[:n]: the first n characters. -/
def pySlice (s : String) (n : Nat) : String := ⟨s.data.take n⟩

/-- The rating computation of get_games_by_platform_and_genre:
rating = game_data.get('rating', 0) * 20, overridden by the metacritic
value when that key is present and truthy (non-zero). -/
def computedRating (g : RawGame) : ℚ :=
  let rating := g.rating.getD 0 * 20
  match g.metacritic with
  | some m => if m == 0 then rating else m
  | none => rating

/-- The game_info dict built for one API result: defaults for missing
keys and the description truncated to 500 characters. -/
def toGameInfo (platform genre : String) (g : RawGame) : GameInfo :=
  { rawg_id := g.id
    title := g.name.getD "Unknown"
    platform := platform
    genre := genre
    rating := computedRating g
    image_url := g.background_image.getD ""
    description := pySlice (g.description_raw.getD "") 500 }

/-- RAWGClient.get_games_by_platform_and_genre.  apiData is the decoded
response of the outbound request (none when the request failed).  The
early returns mirror the source: missing or falsy lookup values, a
failed request, or a response without a results key all yield []. -/
def get_games_by_platform_and_genre (platform genre : String) (page_size : Nat)
    (apiData : Option ApiResponse) : List GameInfo :=
  match PLATFORM_MAP.lookup platform, GENRE_MAP.lookup genre with
  | some platform_id, some genre_slug =>
    if platform_id == 0 || genre_slug == "" then []
    else
      match apiData with
      | none => []
      | some data =>
        match data.results with
        | none => []
        | some rs => rs.map (toGameInfo platform genre)
  | _, _ => []

/-! ### Sorting by rating, descending

Both the SQL order_by(Game.rating.desc()) of get_cached_games and the
Python sorted(games, key=rating, reverse=True) of the /results handler
sort by descending rating and are stable; both are modelled by
List.insertionSort with the non-strict relation below, which is also
stable. -/

/-- Descending-rating order on game dictionaries. -/
def ratingGE (a b : GameInfo) : Prop := b.rating ≤ a.rating

instance : DecidableRel ratingGE := fun a b => inferInstanceAs (Decidable (b.rating ≤ a.rating))

instance : IsTotal GameInfo ratingGE := ⟨fun a b => le_total b.rating a.rating⟩

instance : IsTrans GameInfo ratingGE := ⟨fun _ _ _ h1 h2 => le_trans h2 h1⟩

/-- Descending-rating order on Game table rows. -/
def rowRatingGE (a b : GameRow) : Prop := b.rating ≤ a.rating

instance : DecidableRel rowRatingGE := fun a b => inferInstanceAs (Decidable (b.rating ≤ a.rating))

instance : IsTotal GameRow rowRatingGE := ⟨fun a b => le_total b.rating a.rating⟩

instance : IsTrans GameRow rowRatingGE := ⟨fun _ _ _ h1 h2 => le_trans h2 h1⟩

/-- The dict built from a cached row by get_cached_games. -/
def rowToInfo (g : GameRow) : GameInfo :=
  { rawg_id := g.rawg_id, title := g.title, platform := g.platform, genre := g.genre,
    rating := g.rating, image_url := g.image_url, description := g.description }

/-- The Game row inserted for a fetched dict by cache_games_to_database. -/
def infoToRow (g : GameInfo) : GameRow :=
  { rawg_id := g.rawg_id, title := g.title, platform := g.platform, genre := g.genre,
    rating := g.rating, image_url := g.image_url, description := g.description }

/-- RAWGClient.get_cached_games: the Game table filtered by platform and
genre, ordered by rating descending, limited, and turned into dicts. -/
def get_cached_games (dbGames : List GameRow) (platform genre : String) (limit : Nat) :
    List GameInfo :=
  ((List.insertionSort rowRatingGE
      (dbGames.filter (fun g => g.platform == platform && g.genre == genre))).take limit).map
    rowToInfo

/-- The existence check of cache_games_to_database: a row with the same
rawg_id, platform and genre. -/
def matchesTriple (gi : GameInfo) (r : GameRow) : Bool :=
  r.rawg_id == gi.rawg_id && r.platform == gi.platform && r.genre == gi.genre

/-- The insertion loop of cache_games_to_database.  The session is in
autoflush mode, so the Game.query existence check of each iteration sees
the committed table together with the rows already added to the session
in this call (the pending list); cached_count counts the adds. -/
def cacheLoop (db0 : List GameRow) : List GameInfo → List GameRow → Nat → List GameRow × Nat
  | [], pending, count => (pending, count)
  | gi :: rest, pending, count =>
    if (db0 ++ pending).any (matchesTriple gi) then cacheLoop db0 rest pending count
    else cacheLoop db0 rest (pending ++ [infoToRow gi]) (count + 1)

/-- RAWGClient.cache_games_to_database: run the loop, then commit.  A
successful commit appends the pending rows and returns their count; a
failed commit rolls back, leaving the table unchanged, and returns 0. -/
def cache_games_to_database (db0 : List GameRow) (games : List GameInfo) (commitOk : Bool) :
    List GameRow × Nat :=
  let r := cacheLoop db0 games [] 0
  if commitOk then (db0 ++ r.1, r.2) else (db0, 0)

/-- The merge loop of the /results handler: existing_ids is the set of
cached ids, computed once before the loop and never extended, and each
fetched game whose id is not in it is appended. -/
def mergeGames (games api_games : List GameInfo) : List GameInfo :=
  let existing_ids := games.map GameInfo.rawg_id
  games ++ api_games.filter (fun g => decide (g.rawg_id ∉ existing_ids))

/-- The observable outcome of the /results games computation: the list
passed to the template, whether the external API was called, and the
Game table afterwards. -/
structure ResultsOutcome where
  games : List GameInfo
  apiCalled : Bool
  dbGames : List GameRow
deriving Repr

/-- The /results handler for a request with platform and genre present
(the handler redirects before doing anything when either is missing):
query the cache limited to 20; when fewer than 10 rows come back, call
the API, and when that yields a non-empty list, persist it and merge,
re-sort by rating descending and truncate to 20. -/
def resultsHandler (dbGames : List GameRow) (platform genre : String)
    (apiData : Option ApiResponse) (commitOk : Bool) : ResultsOutcome :=
  let games := get_cached_games dbGames platform genre 20
  if games.length < 10 then
    let api_games := get_games_by_platform_and_genre platform genre 20 apiData
    if api_games.isEmpty then
      { games := games, apiCalled := true, dbGames := dbGames }
    else
      { games := (List.insertionSort ratingGE (mergeGames games api_games)).take 20,
        apiCalled := true,
        dbGames := (cache_games_to_database dbGames api_games commitOk).1 }
  else
    { games := games, apiCalled := false, dbGames := dbGames }

/-- The signup handler for a POST, acting on the User table.  Arguments
are the three form fields (none when absent) and the werkzeug hash of
the password; the Boolean result is true exactly when a user row was
created (every other path flashes an error and leaves the table alone,
the failed-commit path after a rollback). -/
def signupHandler (users : List UserRow) (username password confirm_password : Option String)
    (password_hash : String) (commitOk : Bool) : List UserRow × Bool :=
  match username, password with
  | some u, some p =>
    if u == "" || p == "" then (users, false)
    else if confirm_password ≠ some p then (users, false)
    else if users.any (fun x => x.username == u) then (users, false)
    else if commitOk then (users ++ [⟨u, password_hash⟩], true)
    else (users, false)
  | _, _ => (users, false)

/-- The routes of the application (src/app.py). -/
inductive Route
  | index
  | login
  | signup
  | logout
  | survey
  | results
  | my_lists
deriving DecidableEq, Repr

/-- Effect of the /results handler on the SavedList table: a logged-in
user (session user id present) appends one row with the chosen platform
and genre when the commit succeeds; a failed commit is rolled back, and
a guest search is kept in the session, not the table. -/
def resultsSavedListsEffect (saved : List SavedListRow) (sessionUser : Option Nat)
    (platform genre : String) (commitOk : Bool) : List SavedListRow :=
  match sessionUser with
  | some uid => if commitOk then saved ++ [⟨uid, platform, genre⟩] else saved
  | none => saved

/-- Effect of each route handler on the SavedList table.  Only /results
writes to it; /my-lists reads it and every other handler never touches
it, which is what the identity cases record. -/
def routeSavedListsEffect (r : Route) (saved : List SavedListRow) (sessionUser : Option Nat)
    (platform genre : String) (commitOk : Bool) : List SavedListRow :=
  match r with
  | Route.results => resultsSavedListsEffect saved sessionUser platform genre commitOk
  | _ => saved

/-- Transcription of the specification sentence for the cache write
(spec section 4 item 3, claim C4): the fetched games that are persisted
are exactly those for which no row with the same external id, platform
and genre already exists — in the table or among the rows this very call
has already inserted. -/
def specNewlyInserted : List GameRow → List GameInfo → List GameInfo
  | _, [] => []
  | present, gi :: rest =>
    if present.any (matchesTriple gi) then specNewlyInserted present rest
    else gi :: specNewlyInserted (present ++ [infoToRow gi]) rest

/-! ### Helper lemmas -/

/-- The cached-games query result is sorted by rating descending. -/
theorem get_cached_games_sorted (dbGames : List GameRow) (platform genre : String) (limit : Nat) :
    List.Sorted ratingGE (get_cached_games dbGames platform genre limit) := by
  unfold get_cached_games
  refine List.Pairwise.map rowToInfo (fun a b h => h) ?_
  exact (List.sorted_insertionSort rowRatingGE _).sublist (List.take_sublist _ _)

/-- The cached-games query result respects its limit. -/
theorem get_cached_games_length_le (dbGames : List GameRow) (platform genre : String)
    (limit : Nat) : (get_cached_games dbGames platform genre limit).length ≤ limit := by
  unfold get_cached_games
  rw [List.length_map]
  exact List.length_take_le _ _

/-! ### Claim theorems -/

/-- C1: for every /results request with platform and genre present, the
list of games passed to the rendered page is sorted by rating in
descending order and contains at most 20 games, on the cache-only path
as well as on the merge path. -/
theorem c1_results_games_sorted_and_truncated (dbGames : List GameRow) (platform genre : String)
    (apiData : Option ApiResponse) (commitOk : Bool) :
    List.Sorted ratingGE (resultsHandler dbGames platform genre apiData commitOk).games ∧
    (resultsHandler dbGames platform genre apiData commitOk).games.length ≤ 20 := by
  simp only [resultsHandler]
  split
  · split
    · exact ⟨get_cached_games_sorted dbGames platform genre 20,
        get_cached_games_length_le dbGames platform genre 20⟩
    · constructor
      · exact (List.sorted_insertionSort ratingGE _).sublist (List.take_sublist _ _)
      · exact List.length_take_le _ _
  · exact ⟨get_cached_games_sorted dbGames platform genre 20,
      get_cached_games_length_le dbGames platform genre 20⟩

/-- C3: the external API is called if and only if the cache query
(filtered, rating-descending, limit 20) returns fewer than 10 rows, and
with 10 or more rows the Game table is left untouched. -/
theorem c3_api_call_iff_thin_cache (dbGames : List GameRow) (platform genre : String)
    (apiData : Option ApiResponse) (commitOk : Bool) :
    ((resultsHandler dbGames platform genre apiData commitOk).apiCalled = true ↔
      (get_cached_games dbGames platform genre 20).length < 10) ∧
    (10 ≤ (get_cached_games dbGames platform genre 20).length →
      (resultsHandler dbGames platform genre apiData commitOk).dbGames = dbGames) := by
  simp only [resultsHandler]
  by_cases h : (get_cached_games dbGames platform genre 20).length < 10
  · rw [if_pos h]
    constructor
    · split <;> simp [h]
    · intro h10; omega
  · rw [if_neg h]
    constructor
    · simpa using h
    · intro _; rfl

/-- Ten cached Steam RPG rows, enough to keep C3 on the cache-only path. -/
def c3db : List GameRow :=
  [⟨1, "G", "Steam", "RPG", 1, "", ""⟩, ⟨2, "G", "Steam", "RPG", 2, "", ""⟩,
   ⟨3, "G", "Steam", "RPG", 3, "", ""⟩, ⟨4, "G", "Steam", "RPG", 4, "", ""⟩,
   ⟨5, "G", "Steam", "RPG", 5, "", ""⟩, ⟨6, "G", "Steam", "RPG", 6, "", ""⟩,
   ⟨7, "G", "Steam", "RPG", 7, "", ""⟩, ⟨8, "G", "Steam", "RPG", 8, "", ""⟩,
   ⟨9, "G", "Steam", "RPG", 9, "", ""⟩, ⟨10, "G", "Steam", "RPG", 10, "", ""⟩]

/-- C3 witness: with ten cached rows the handler leaves the table as it
found it. -/
theorem c3_witness : (resultsHandler c3db "Steam" "RPG" none true).dbGames = c3db :=
  (c3_api_call_iff_thin_cache c3db "Steam" "RPG" none true).2 (by decide)

/-- An API result whose duplication exhibits the C2 failure. -/
def c2rawDup : RawGame :=
  { id := 1, name := some "A", rating := some 4, metacritic := some 90,
    background_image := some "", description_raw := some "" }

/-- C2 counterexample: when the fetched list contains two entries with
the same rawg_id, the list served by /results keeps both — the
existing_ids set is computed before the merge loop and never extended,
so the claimed de-duplication within the fetched list does not happen. -/
theorem c2_counterexample :
    ¬ (((resultsHandler [] "Steam" "RPG" (some ⟨some [c2rawDup, c2rawDup]⟩) true).games.map
        GameInfo.rawg_id).Nodup) := by decide

/-- C2 amended: the merge skips every fetched game whose external id
already occurs among the cached ones, so whenever the cached list and
the fetched list each carry pairwise-distinct rawg_id values, the merged
list — and the re-sorted, truncated list served by /results — has no two
entries with the same rawg_id. -/
theorem c2_merged_ids_nodup (cached api_games : List GameInfo)
    (hc : (cached.map GameInfo.rawg_id).Nodup)
    (ha : (api_games.map GameInfo.rawg_id).Nodup) :
    ((mergeGames cached api_games).map GameInfo.rawg_id).Nodup ∧
    (((List.insertionSort ratingGE (mergeGames cached api_games)).take 20).map
        GameInfo.rawg_id).Nodup := by
  have hmerge : ((mergeGames cached api_games).map GameInfo.rawg_id).Nodup := by
    unfold mergeGames
    rw [List.map_append]
    refine List.Nodup.append hc ?_ ?_
    · exact ha.sublist ((List.filter_sublist api_games).map GameInfo.rawg_id)
    · intro x hx hy
      rcases List.mem_map.mp hy with ⟨g, hgmem, rfl⟩
      have hdec := (List.mem_filter.mp hgmem).2
      exact (of_decide_eq_true hdec) hx
  refine ⟨hmerge, ?_⟩
  have hsorted :
      ((List.insertionSort ratingGE (mergeGames cached api_games)).map GameInfo.rawg_id).Nodup := by
    have p := (List.perm_insertionSort ratingGE (mergeGames cached api_games)).map GameInfo.rawg_id
    exact p.nodup_iff.mpr hmerge
  exact hsorted.sublist ((List.take_sublist 20 _).map GameInfo.rawg_id)

/-- C2 witness: a concrete merge of distinct-id lists stays
duplicate-free. -/
theorem c2_witness :
    ((([⟨1, "A", "Steam", "RPG", 90, "", ""⟩] : List GameInfo).map GameInfo.rawg_id).Nodup ∧
      (([⟨2, "B", "Steam", "RPG", 95, "", ""⟩] : List GameInfo).map GameInfo.rawg_id).Nodup) ∧
    ((mergeGames [⟨1, "A", "Steam", "RPG", 90, "", ""⟩]
        [⟨2, "B", "Steam", "RPG", 95, "", ""⟩]).map GameInfo.rawg_id).Nodup :=
  ⟨⟨by decide, by decide⟩,
    (c2_merged_ids_nodup [⟨1, "A", "Steam", "RPG", 90, "", ""⟩]
      [⟨2, "B", "Steam", "RPG", 95, "", ""⟩] (by decide) (by decide)).1⟩

/-- The insertion loop, characterized against the spec-side filter: the
pending rows and count after the loop are exactly the rows and count of
the games the spec says get persisted, relative to the rows visible to
the existence check. -/
theorem cacheLoop_eq (db0 : List GameRow) (games : List GameInfo) :
    ∀ (pending : List GameRow) (count : Nat),
    cacheLoop db0 games pending count =
      (pending ++ (specNewlyInserted (db0 ++ pending) games).map infoToRow,
       count + (specNewlyInserted (db0 ++ pending) games).length) := by
  induction games with
  | nil => intro pending count; simp [cacheLoop, specNewlyInserted]
  | cons gi rest ih =>
    intro pending count
    by_cases h : ((db0 ++ pending).any (matchesTriple gi) = true)
    · simp only [cacheLoop, specNewlyInserted, h, if_pos]
      exact ih pending count
    · simp only [cacheLoop, specNewlyInserted, h, if_neg, Bool.false_eq_true,
        not_false_eq_true]
      rw [ih (pending ++ [infoToRow gi]) (count + 1)]
      simp [List.append_assoc]
      omega

/-- C4: cache_games_to_database inserts exactly the fetched games for
which no row with the same external id, platform and genre already
exists (in the table or among the rows inserted earlier in the same
call, which the autoflushing session makes visible to the check), and
returns their number; a failed commit leaves the table unchanged and
returns 0. -/
theorem c4_cache_exactly_new_rows (db0 : List GameRow) (games : List GameInfo) :
    cache_games_to_database db0 games false = (db0, 0) ∧
    cache_games_to_database db0 games true =
      (db0 ++ (specNewlyInserted db0 games).map infoToRow,
       (specNewlyInserted db0 games).length) := by
  unfold cache_games_to_database
  rw [cacheLoop_eq db0 games [] 0]
  simp

/-- C5: a failed outbound request (apiData = none) or a platform or
genre absent from the static lookup tables makes
get_games_by_platform_and_genre return the empty list. -/
theorem c5_failure_gives_empty_list (platform genre : String) (page_size : Nat)
    (apiData : Option ApiResponse)
    (h : PLATFORM_MAP.lookup platform = none ∨ GENRE_MAP.lookup genre = none ∨ apiData = none) :
    get_games_by_platform_and_genre platform genre page_size apiData = [] := by
  cases hp : PLATFORM_MAP.lookup platform with
  | none => simp [get_games_by_platform_and_genre, hp]
  | some pid =>
    cases hg : GENRE_MAP.lookup genre with
    | none => simp [get_games_by_platform_and_genre, hp, hg]
    | some gs =>
      rcases h with h | h | h
      · rw [hp] at h; cases h
      · rw [hg] at h; cases h
      · subst h
        simp only [get_games_by_platform_and_genre, hp, hg]
        split <;> rfl

/-- C5 witness: the genre Sports is not in GENRE_MAP, so even a
successful response yields no games. -/
theorem c5_witness :
    GENRE_MAP.lookup "Sports" = none ∧
    get_games_by_platform_and_genre "Steam" "Sports" 20 (some ⟨some []⟩) = [] :=
  ⟨by decide, c5_failure_gives_empty_list "Steam" "Sports" 20 (some ⟨some []⟩)
    (Or.inr (Or.inl (by decide)))⟩

/-- Every non-creating outcome of a signup POST leaves the User table
unchanged. -/
theorem signupHandler_not_created_unchanged (users : List UserRow)
    (username password confirm_password : Option String) (password_hash : String)
    (commitOk : Bool) :
    (signupHandler users username password confirm_password password_hash commitOk).2 = false →
    (signupHandler users username password confirm_password password_hash commitOk).1 =
      users := by
  cases username with
  | none => intro _; rfl
  | some u =>
    cases password with
    | none => intro _; rfl
    | some p =>
      simp only [signupHandler]
      split_ifs <;> intro h <;> first | rfl | simp at h

/-- The signup handler preserves distinctness of usernames. -/
theorem signupHandler_preserves_nodup (users : List UserRow)
    (username password confirm_password : Option String) (password_hash : String)
    (commitOk : Bool) :
    (users.map UserRow.username).Nodup →
    (((signupHandler users username password confirm_password password_hash commitOk).1).map
        UserRow.username).Nodup := by
  intro hnd
  cases username with
  | none => exact hnd
  | some u =>
    cases password with
    | none => exact hnd
    | some p =>
      simp only [signupHandler]
      split_ifs with h1 h2 h3 h4
      · exact hnd
      · exact hnd
      · exact hnd
      · rw [List.map_append]
        refine List.Nodup.append hnd (by simp) ?_
        intro a ha hb
        rcases List.mem_map.mp ha with ⟨x, hx, rfl⟩
        have hxu : x.username = u := by simpa using hb
        exact h3 (List.any_eq_true.mpr ⟨x, hx, beq_iff_eq.mpr hxu⟩)
      · exact hnd

/-- A signup POST whose commit succeeds creates a row exactly under the
conditions of the handler checks. -/
theorem signupHandler_created_iff (users : List UserRow)
    (username password confirm_password : Option String) (password_hash : String) :
    (signupHandler users username password confirm_password password_hash true).2 = true ↔
      ∃ u p, username = some u ∧ password = some p ∧ u ≠ "" ∧ p ≠ "" ∧
        confirm_password = some p ∧ ∀ x ∈ users, x.username ≠ u := by
  cases username with
  | none => simp [signupHandler]
  | some u =>
    cases password with
    | none => simp [signupHandler]
    | some p =>
      simp only [signupHandler]
      split_ifs with h1 h2 h3
      · constructor
        · intro h; exact absurd h (by simp)
        · rintro ⟨u', p', hu, hp, hu', hp', -, -⟩
          cases hu; cases hp
          simp only [Bool.or_eq_true, beq_iff_eq] at h1
          rcases h1 with h | h
          · exact (hu' h).elim
          · exact (hp' h).elim
      · constructor
        · intro h; exact absurd h (by simp)
        · rintro ⟨u', p', hu, hp, -, -, hc, -⟩
          cases hu; cases hp
          exact (h2 hc).elim
      · constructor
        · intro h; exact absurd h (by simp)
        · rintro ⟨u', p', hu, hp, -, -, -, hall⟩
          cases hu; cases hp
          rcases List.any_eq_true.mp h3 with ⟨x, hxmem, hxeq⟩
          exact (hall x hxmem (eq_of_beq hxeq)).elim
      · simp only [Bool.or_eq_true, beq_iff_eq, not_or] at h1
        constructor
        · intro _
          exact ⟨u, p, rfl, rfl, h1.1, h1.2, not_not.mp h2, fun x hx hxu =>
            h3 (List.any_eq_true.mpr ⟨x, hx, beq_iff_eq.mpr hxu⟩)⟩
        · intro _; rfl

/-- C6: assuming the database commit succeeds, a signup POST creates a
user row exactly when username and password are provided (non-empty),
the password matches its confirmation and no user with that username
exists; every other outcome leaves the User table unchanged, and the
handler preserves distinctness of usernames for any commit outcome. -/
theorem c6_signup_creates_iff (users : List UserRow)
    (username password confirm_password : Option String) (password_hash : String) :
    ((signupHandler users username password confirm_password password_hash true).2 = true ↔
      ∃ u p, username = some u ∧ password = some p ∧ u ≠ "" ∧ p ≠ "" ∧
        confirm_password = some p ∧ ∀ x ∈ users, x.username ≠ u) ∧
    (∀ commitOk : Bool,
      (signupHandler users username password confirm_password password_hash commitOk).2 = false →
        (signupHandler users username password confirm_password password_hash commitOk).1 =
          users) ∧
    (∀ commitOk : Bool, (users.map UserRow.username).Nodup →
      (((signupHandler users username password confirm_password password_hash commitOk).1).map
          UserRow.username).Nodup) :=
  ⟨signupHandler_created_iff users username password confirm_password password_hash,
   fun commitOk => signupHandler_not_created_unchanged users username password confirm_password
     password_hash commitOk,
   fun commitOk => signupHandler_preserves_nodup users username password confirm_password
     password_hash commitOk⟩

/-- C6 witness: on an empty table, providing alice with a matching
confirmation creates the account. -/
theorem c6_witness :
    (signupHandler [] (some "alice") (some "pw") (some "pw") "hash" true).2 = true :=
  (c6_signup_creates_iff [] (some "alice") (some "pw") (some "pw") "hash").1.mpr
    ⟨"alice", "pw", rfl, rfl, by decide, by decide, rfl, by simp⟩

/-- C7: the SavedList table is append-only under every route handler —
the prior rows are always an initial segment of the rows afterwards —
and a /results view by a logged-in user whose save commits appends
exactly the one row with that user id and the chosen platform and
genre. -/
theorem c7_saved_lists_append_only (r : Route) (saved : List SavedListRow)
    (sessionUser : Option Nat) (platform genre : String) (commitOk : Bool) :
    (∃ t, routeSavedListsEffect r saved sessionUser platform genre commitOk = saved ++ t) ∧
    (∀ uid, sessionUser = some uid → commitOk = true →
      routeSavedListsEffect Route.results saved sessionUser platform genre commitOk =
        saved ++ [⟨uid, platform, genre⟩]) := by
  constructor
  · cases r <;> simp only [routeSavedListsEffect]
    case results =>
      cases sessionUser with
      | none => exact ⟨[], by simp [resultsSavedListsEffect]⟩
      | some uid =>
        cases commitOk with
        | false => exact ⟨[], by simp [resultsSavedListsEffect]⟩
        | true => exact ⟨[⟨uid, platform, genre⟩], by simp [resultsSavedListsEffect]⟩
    all_goals exact ⟨[], by simp⟩
  · rintro uid rfl rfl
    simp [routeSavedListsEffect, resultsSavedListsEffect]

/-- C7 witness: a logged-in /results view appends its one search row. -/
theorem c7_witness :
    routeSavedListsEffect Route.results [] (some 1) "Steam" "RPG" true =
      [] ++ [⟨1, "Steam", "RPG"⟩] :=
  (c7_saved_lists_append_only Route.results [] (some 1) "Steam" "RPG" true).2 1 rfl rfl

/-- Two API results that honor the requested -rating ordering on the
RAWG 0-5 scale (5 before 4) but whose computed ratings come out
ascending, because the second metacritic score beats the first. -/
def c8rawA : RawGame :=
  { id := 1, name := some "A", rating := some 5, metacritic := some 60,
    background_image := some "", description_raw := some "" }

/-- Companion of c8rawA with the higher metacritic score. -/
def c8rawB : RawGame :=
  { id := 2, name := some "B", rating := some 4, metacritic := some 80,
    background_image := some "", description_raw := some "" }

/-- C8 counterexample: the client neither re-sorts nor truncates — it
maps the response in order — so a response ordered by the API rating can
still yield a list whose computed rating field is not descending (the
metacritic override reverses the order here). -/
theorem c8_counterexample :
    ¬ List.Sorted ratingGE
      (get_games_by_platform_and_genre "Steam" "RPG" 20 (some ⟨some [c8rawA, c8rawB]⟩)) := by
  decide

/-- C8 amended: for a platform and genre in the lookup tables, the
client asks the API for page_size 20 ordered by -rating, and returns
exactly one game per response entry, in response order; hence the result
has at most 20 entries whenever the response does, and is rating-
descending exactly when the computed ratings are non-increasing in
response order. -/
theorem c8_request_truncation_delegated (platform genre : String) (data : ApiResponse)
    (params : RequestParams) (rs : List RawGame)
    (hp : requestParamsFor platform genre 20 = some params)
    (hr : data.results = some rs) :
    params.page_size = 20 ∧ params.ordering = "-rating" ∧
    get_games_by_platform_and_genre platform genre 20 (some data) =
      rs.map (toGameInfo platform genre) ∧
    (get_games_by_platform_and_genre platform genre 20 (some data)).length = rs.length ∧
    (List.Pairwise (fun a b : RawGame => computedRating b ≤ computedRating a) rs →
      List.Sorted ratingGE (get_games_by_platform_and_genre platform genre 20 (some data))) := by
  cases hpl : PLATFORM_MAP.lookup platform with
  | none => simp only [requestParamsFor, hpl] at hp; cases hp
  | some pid =>
    cases hgl : GENRE_MAP.lookup genre with
    | none => simp only [requestParamsFor, hpl, hgl] at hp; cases hp
    | some gs =>
      by_cases hz : (pid == 0 || gs == "") = true
      · simp only [requestParamsFor, hpl, hgl, hz, if_pos] at hp; cases hp
      · simp only [requestParamsFor, hpl, hgl, hz, if_neg, Bool.false_eq_true,
          not_false_eq_true] at hp
        cases hp
        have hmap : get_games_by_platform_and_genre platform genre 20 (some data) =
            rs.map (toGameInfo platform genre) := by
          simp only [get_games_by_platform_and_genre, hpl, hgl, hz, if_neg,
            Bool.false_eq_true, not_false_eq_true, hr]
        refine ⟨rfl, rfl, hmap, ?_, ?_⟩
        · rw [hmap, List.length_map]
        · intro hpw
          rw [hmap]
          exact List.Pairwise.map (toGameInfo platform genre) (fun a b h => h) hpw

/-- C8 witness: a concrete Steam RPG request with a two-entry response
builds the expected params and returns one game per entry. -/
theorem c8_witness :
    requestParamsFor "Steam" "RPG" 20 =
      some ⟨4, "role-playing-games-rpg", 20, "-rating"⟩ ∧
    (get_games_by_platform_and_genre "Steam" "RPG" 20
        (some ⟨some [c8rawB, c8rawA]⟩)).length = [c8rawB, c8rawA].length :=
  ⟨by decide,
    (c8_request_truncation_delegated "Steam" "RPG" ⟨some [c8rawB, c8rawA]⟩
      ⟨4, "role-playing-games-rpg", 20, "-rating"⟩ [c8rawB, c8rawA]
      (by decide) rfl).2.2.2.1⟩

/-- The fallback rating, 20 times the 0-5 API value, lands in 0-100. -/
theorem base_rating_bounds (g : RawGame)
    (hr : ∀ x, g.rating = some x → 0 ≤ x ∧ x ≤ 5) :
    0 ≤ g.rating.getD 0 * 20 ∧ g.rating.getD 0 * 20 ≤ 100 := by
  cases hx : g.rating with
  | none => norm_num
  | some x =>
    rcases hr x hx with ⟨h1, h2⟩
    simp only [Option.getD_some]
    constructor <;> nlinarith

/-- C9: assuming the API rating sits on the 0-5 scale and any metacritic
value in 0-100, the computed rating lies in 0-100; it equals the
metacritic score when that is present and non-zero, and 20 times the API
rating otherwise. -/
theorem c9_rating_in_range (g : RawGame)
    (hr : ∀ x, g.rating = some x → 0 ≤ x ∧ x ≤ 5)
    (hm : ∀ m, g.metacritic = some m → 0 ≤ m ∧ m ≤ 100) :
    (0 ≤ computedRating g ∧ computedRating g ≤ 100) ∧
    (∀ m, g.metacritic = some m → m ≠ 0 → computedRating g = m) ∧
    ((g.metacritic = none ∨ g.metacritic = some 0) →
      computedRating g = g.rating.getD 0 * 20) := by
  have hbase := base_rating_bounds g hr
  have heqnone : g.metacritic = none → computedRating g = g.rating.getD 0 * 20 := by
    intro h; simp [computedRating, h]
  have heqz : ∀ m, g.metacritic = some m → m = 0 →
      computedRating g = g.rating.getD 0 * 20 := by
    intro m h hz; simp [computedRating, h, hz]
  have heqm : ∀ m, g.metacritic = some m → m ≠ 0 → computedRating g = m := by
    intro m h hz; simp [computedRating, h, hz]
  refine ⟨?_, ?_, ?_⟩
  · cases hmc : g.metacritic with
    | none => rw [heqnone hmc]; exact hbase
    | some m =>
      by_cases hz : m = 0
      · rw [heqz m hmc hz]; exact hbase
      · rw [heqm m hmc hz]; exact hm m hmc
  · intro m hmc hne
    exact heqm m hmc hne
  · intro hd
    rcases hd with hd | hd
    · exact heqnone hd
    · exact heqz 0 hd rfl

/-- A concrete API entry for the C9 witness: rating 4, no metacritic. -/
def c9g : RawGame :=
  { id := 7, name := some "G", rating := some 4, metacritic := none,
    background_image := none, description_raw := none }

/-- C9 witness: the computed rating of c9g lies in 0-100. -/
theorem c9_witness : 0 ≤ computedRating c9g ∧ computedRating c9g ≤ 100 :=
  (c9_rating_in_range c9g
    (fun x hx => by injection hx with h; rw [← h]; norm_num)
    (fun m hm => by simp [c9g] at hm)).1

/-- A successful client result maps the response entries one for one. -/
theorem get_games_shape (platform genre : String) (page_size : Nat)
    (apiData : Option ApiResponse) :
    get_games_by_platform_and_genre platform genre page_size apiData = [] ∨
    ∃ rs : List RawGame, get_games_by_platform_and_genre platform genre page_size apiData =
      rs.map (toGameInfo platform genre) := by
  cases hpl : PLATFORM_MAP.lookup platform with
  | none => exact Or.inl (by simp [get_games_by_platform_and_genre, hpl])
  | some pid =>
    cases hgl : GENRE_MAP.lookup genre with
    | none => exact Or.inl (by simp [get_games_by_platform_and_genre, hpl, hgl])
    | some gs =>
      by_cases hz : (pid == 0 || gs == "") = true
      · exact Or.inl (by simp [get_games_by_platform_and_genre, hpl, hgl, hz])
      · cases apiData with
        | none => exact Or.inl (by simp [get_games_by_platform_and_genre, hpl, hgl, hz])
        | some data =>
          cases hres : data.results with
          | none =>
            exact Or.inl (by simp [get_games_by_platform_and_genre, hpl, hgl, hz, hres])
          | some rs =>
            exact Or.inr ⟨rs,
              by simp [get_games_by_platform_and_genre, hpl, hgl, hz, hres]⟩

/-- Every built game dict has a description of at most 500 characters. -/
theorem toGameInfo_description_le (platform genre : String) (g : RawGame) :
    (toGameInfo platform genre g).description.length ≤ 500 := by
  show ((g.description_raw.getD "").data.take 500).length ≤ 500
  exact List.length_take_le _ _

/-- C10: every game the client returns carries a description of at most
500 characters, and missing API fields are defaulted: title to Unknown,
image URL and description to the empty string (the dict always carries
all seven keys, which the GameInfo structure enforces by construction). -/
theorem c10_defaults_and_truncation (platform genre : String) (page_size : Nat)
    (apiData : Option ApiResponse) :
    (∀ gi ∈ get_games_by_platform_and_genre platform genre page_size apiData,
      gi.description.length ≤ 500) ∧
    (∀ g : RawGame,
      (g.name = none → (toGameInfo platform genre g).title = "Unknown") ∧
      (g.background_image = none → (toGameInfo platform genre g).image_url = "") ∧
      (g.description_raw = none → (toGameInfo platform genre g).description = "")) := by
  constructor
  · intro gi hgi
    rcases get_games_shape platform genre page_size apiData with h | ⟨rs, h⟩
    · rw [h] at hgi; cases hgi
    · rw [h] at hgi
      rcases List.mem_map.mp hgi with ⟨g, -, rfl⟩
      exact toGameInfo_description_le platform genre g
  · intro g
    refine ⟨fun h => ?_, fun h => ?_, fun h => ?_⟩
    · simp [toGameInfo, h]
    · simp [toGameInfo, h]
    · simp only [toGameInfo, h, Option.getD_none]
      decide

/-- A concrete API entry missing its name and description, for C10. -/
def c10raw : RawGame :=
  { id := 3, name := none, rating := some 4, metacritic := some 88,
    background_image := none, description_raw := none }

/-- C10 witness: the game built from c10raw keeps its description under
500 characters and defaults its title. -/
theorem c10_witness :
    (toGameInfo "Steam" "RPG" c10raw).description.length ≤ 500 ∧
    (toGameInfo "Steam" "RPG" c10raw).title = "Unknown" := by
  constructor
  · exact (c10_defaults_and_truncation "Steam" "RPG" 20 (some ⟨some [c10raw]⟩)).1
      (toGameInfo "Steam" "RPG" c10raw) (by decide)
  · exact ((c10_defaults_and_truncation "Steam" "RPG" 20 (some ⟨some [c10raw]⟩)).2 c10raw).1 rfl

end GameRecSite
